import Mathlib

/-!
Shallow embedding of the `moku-mcp` server core (src/src/moku_mcp/server.py,
utils.py) for checking the natural-language specification against the code.

External effects (the Moku SDK handle, zeroconf, the on-disk cache file) are
modelled as explicit inputs: the device cache is a list of records passed in,
and the hardware handle is a record of outcome functions (`Hardware`) telling
each call whether it succeeds or raises.  Every hardware call that the code
issues is recorded in an event trace, so "no hardware call was made" and
"slots were attempted in this order" are statable.

The `moku_models` package (MokuConfig, SlotConfig, MokuConnection,
MokuDeviceCache, validate_routing) is imported by the code but is not part of
the sources under verification; those definitions are modelled from the spec
(section 3 and 4.4) and are marked as such in their doc comments.
-/

/-! ## Data model -/

/-- Modelled from the spec: `moku_models.MokuConnection` is not in the sources.
A directed routing edge between two named channels (spec section 3,
RoutingEdge). -/
structure MokuConnection where
  source : String
  destination : String
deriving DecidableEq, Repr

/-- Modelled from the spec: `moku_models.SlotConfig` is not in the sources.
Per-slot instrument configuration (spec section 3).  The instrument is kept as
a string because the code compares it against string literals
("CloudCompile", "Oscilloscope").  `control_registers` is an ordered list of
(register-address, value) pairs ("applied in the order given").  Of the
instrument-specific `settings` mapping the code only reads the "timebase" key
for Oscilloscope (server.py:361), modelled as an optional pair. -/
structure SlotConfig where
  instrument : String
  bitstream : Option String := none
  control_registers : List (Nat × Nat) := []
  timebase : Option (Int × Int) := none
deriving DecidableEq, Repr

/-- Modelled from the spec: `moku_models` platform descriptor is not in the
sources.  Platform capability: slot count and the I/O channels it exposes
(spec section 3, PlatformDescriptor), plus the `ip_address` field that
`get_config` overwrites via `model_copy` (server.py:469). -/
structure PlatformDescriptor where
  name : String
  slot_count : Nat
  io_channels : List String
  ip_address : Option String := none
deriving DecidableEq, Repr

/-- Modelled from the spec: the `MOKU_GO_PLATFORM` constant of `moku_models`
is not in the sources.  A four-slot platform (server.py:448 queries slots
1..4 "for Moku:Go"). -/
def MOKU_GO_PLATFORM : PlatformDescriptor :=
  { name := "Moku:Go", slot_count := 4,
    io_channels := ["Input1", "Input2", "Output1", "Output2"] }

/-- Modelled from the spec: `moku_models.MokuConfig` is not in the sources.
Platform + slot mapping + ordered routing edges (spec section 3).  The slot
mapping is an association list in declaration order: a Python `dict` preserves
insertion order, and `config.slots.items()` (server.py:334) iterates it in
that order. -/
structure MokuConfig where
  platform : PlatformDescriptor
  slots : List (Nat × SlotConfig)
  routing : List MokuConnection
deriving DecidableEq, Repr

/-- Modelled from the spec: `moku_models.MokuDeviceInfo` is not in the
sources.  A registry record (spec section 3, DeviceRecord). -/
structure MokuDeviceInfo where
  ip : String
  port : Nat
  canonical_name : Option String := none
  serial_number : Option String := none
  last_seen : String := ""
deriving DecidableEq, Repr

/-- Modelled from the spec: `MokuDeviceCache.find_by_ip` is not in the
sources; first record whose ip matches (spec section 4.1). -/
def find_by_ip (cache : List MokuDeviceInfo) (ip : String) :
    Option MokuDeviceInfo :=
  cache.find? (fun d => d.ip == ip)

/-- Modelled from the spec: `MokuDeviceCache.find_by_identifier` is not in
the sources; matches the token against name or serial, first match wins
(spec section 4.1). -/
def find_by_identifier (cache : List MokuDeviceInfo) (token : String) :
    Option MokuDeviceInfo :=
  cache.find? (fun d =>
    d.canonical_name == some token || d.serial_number == some token)

/-! ## Identifier resolver (utils.py) -/

/-- Removes every occurrence of the given characters, as the chained Python
`str.replace(c, "")` calls do. -/
def stripChars (s : String) (cs : List Char) : String :=
  String.mk (s.data.filter (fun c => !cs.contains c))

/-- Python `str.isdigit`: non-empty and every character a digit (restricted
to ASCII digits, which is all the address syntax uses). -/
def pyIsDigit (s : String) : Bool :=
  !s.data.isEmpty && s.data.all Char.isDigit

/-- The address-literal test of `resolve_device_identifier` (utils.py:103):
`"." in device_id and device_id.replace(".", "").replace(":", "").isdigit()`. -/
def looksLikeAddress (s : String) : Bool :=
  s.data.contains '.' && pyIsDigit (stripChars s ['.', ':'])

/-- The fallback literal test inside `attach_moku` (server.py:194):
`"." in device_id and device_id.replace(".", "").isdigit()` — note this one
does not strip colons. -/
def looksLikeDottedAddress (s : String) : Bool :=
  s.data.contains '.' && pyIsDigit (stripChars s ['.'])

/-- Embeds `resolve_device_identifier` (utils.py:92-115).  The on-disk cache
read by `load_device_cache()` is passed in as `cache`. -/
def resolve_device_identifier (cache : List MokuDeviceInfo)
    (device_id : String) : Option String :=
  if looksLikeAddress device_id then
    some device_id
  else
    (find_by_identifier cache device_id).map (fun d => d.ip)

/-! ## Routing validator (moku_models, modelled from the spec) -/

/-- Modelled from the spec: the channels a populated slot exposes.  The spec
(section 4.4) only requires that an edge endpoint "name a channel that exists
given platform capability or a slot currently declared"; the concrete naming
scheme here is one choice of that slot-channel set. -/
def slotChannels (n : Nat) : List String :=
  ["Slot" ++ toString n ++ "InA", "Slot" ++ toString n ++ "InB",
   "Slot" ++ toString n ++ "OutA", "Slot" ++ toString n ++ "OutB"]

/-- Channels declared by the platform or by any populated slot of the same
config. -/
def MokuConfig.declaredChannels (c : MokuConfig) : List String :=
  c.platform.io_channels ++ (c.slots.map (fun p => p.1)).flatMap slotChannels

/-- Modelled from the spec: `MokuConfig.validate_routing` is not in the
sources.  Returns one error descriptor per violation, empty list = valid
(spec section 4.4): slot numbers within `[1, slot_count]`, no self-loop
edges, every endpoint declared by platform or a populated slot. -/
def MokuConfig.validate_routing (c : MokuConfig) : List String :=
  (c.slots.filterMap (fun p =>
    if p.1 < 1 || c.platform.slot_count < p.1 then
      some ("slot out of range: " ++ toString p.1)
    else none))
  ++ (c.routing.filterMap (fun e =>
    if e.source == e.destination then
      some ("self-loop edge: " ++ e.source)
    else none))
  ++ (c.routing.filterMap (fun e =>
    if c.declaredChannels.contains e.source
        && c.declaredChannels.contains e.destination then
      none
    else
      some ("unknown endpoint: " ++ e.source ++ " -> " ++ e.destination)))

/-! ## Hardware model and event trace -/

/-- Outcome of the exclusive connect call (`MultiInstrument(ip, ...)`,
server.py:206): success, a `ConnectionError`, or any other exception. -/
inductive ConnectOutcome
  | ok
  | connectionError (msg : String)
  | otherError (msg : String)
deriving DecidableEq, Repr

/-- The device handle, modelled as an oracle giving the outcome of every
hardware call the server can issue.  `none` means the call succeeds,
`some msg` that it raises an exception with that message.  `get_instrument`
returns `none` for a raised exception, `some none` for an empty slot and
`some (some name)` for a populated one. -/
structure Hardware where
  connect : String → Bool → ConnectOutcome
  set_instrument_ok : Nat → String → Option String
  write_register_ok : Nat → Nat → Nat → Option String
  set_timebase_ok : Nat → Int → Int → Option String
  set_connections_ok : List MokuConnection → Option String
  get_instrument : Nat → Option (Option String)
  relinquish_ok : Option String

/-- A hardware call issued by the server (recorded even when the call
raises: the attempt reached the device). -/
inductive HWEvent
  | connect (ip : String) (force : Bool)
  | setInstrument (slot : Nat) (instrument : String)
  | writeRegister (slot : Nat) (reg : Nat) (value : Nat)
  | setTimebase (slot : Nat) (t1 t2 : Int)
  | setConnections (conns : List MokuConnection)
  | relinquish
deriving DecidableEq, Repr

/-- The slot a hardware event addresses, if it is a per-slot call. -/
def HWEvent.slotOf : HWEvent → Option Nat
  | .setInstrument n _ => some n
  | .writeRegister n _ _ => some n
  | .setTimebase n _ _ => some n
  | _ => none

/-! ## Server state (MokuMCPServer instance fields) -/

/-- The mutable fields of the `MokuMCPServer` instance (server.py:61-63):
`connected_device`, `moku_instance` (abstracted to whether a handle is
present) and `last_config`. -/
structure ServerState where
  connected_device : Option String
  moku_connected : Bool
  last_config : Option MokuConfig
deriving DecidableEq, Repr

/-- The state a fresh server starts in, and that `release_moku` restores:
no handle, no target, no cached config. -/
def idleState : ServerState :=
  { connected_device := none, moku_connected := false, last_config := none }

/-! ## attach_moku (server.py:151-241) -/

/-- Result envelope of `attach_moku`, one constructor per return dict of the
code, carrying the fields the spec talks about. -/
inductive AttachResult
  | already_connected (device_id : String)
  | errAlreadyOwned (current : Option String)
  | errUnknownDevice (device_id : String)
  | connected (ip : String) (name : Option String) (serial : Option String)
  | errConnectionDenied (ip : String) (details : String)
  | errConnectFailed (ip : String) (details : String)
deriving DecidableEq, Repr

/-- Whether an attach result is the no-op "already_connected" envelope. -/
def AttachResult.isAlreadyConnected : AttachResult → Bool
  | .already_connected _ => true
  | _ => false

/-- The connect phase of `attach_moku` (server.py:204-241), entered once an
ip has been chosen.  On success the handle and target are stored and the
registry record (if any) supplies name/serial for the reply, with the code's
"Unknown" fallback when no record exists; on `ConnectionError` nothing was
assigned, so the state is untouched; on any other exception the code clears
both handle fields explicitly. -/
def attachConnect (st : ServerState) (cache : List MokuDeviceInfo)
    (hw : Hardware) (ip : String) (force : Bool) :
    AttachResult × ServerState × List HWEvent :=
  match hw.connect ip force with
  | .ok =>
    let info := find_by_ip cache ip
    (.connected ip
      (match info with | some d => d.canonical_name | none => some "Unknown")
      (match info with | some d => d.serial_number | none => some "Unknown"),
     { st with moku_connected := true, connected_device := some ip },
     [.connect ip force])
  | .connectionError e =>
    (.errConnectionDenied ip e, st, [.connect ip force])
  | .otherError e =>
    (.errConnectFailed ip e,
     { st with moku_connected := false, connected_device := none },
     [.connect ip force])

/-- Embeds `attach_moku` (server.py:151-241).  Already-connected check first
(comparing the raw `device_id` against the stored `connected_device`,
server.py:177), then identifier resolution with the dotted-literal fallback
(server.py:191-201), then the hardware connect attempt. -/
def attach_moku (st : ServerState) (cache : List MokuDeviceInfo)
    (hw : Hardware) (device_id : String) (force : Bool) :
    AttachResult × ServerState × List HWEvent :=
  if st.moku_connected then
    if st.connected_device == some device_id then
      (.already_connected device_id, st, [])
    else
      (.errAlreadyOwned st.connected_device, st, [])
  else
    match resolve_device_identifier cache device_id with
    | some ip => attachConnect st cache hw ip force
    | none =>
      if looksLikeDottedAddress device_id then
        attachConnect st cache hw device_id force
      else
        (.errUnknownDevice device_id, st, [])

/-! ## release_moku (server.py:243-287) -/

/-- Result envelope of `release_moku`. -/
inductive ReleaseResult
  | not_connected
  | disconnected (device : Option String)
  | errRelease (details : String)
deriving DecidableEq, Repr

/-- Embeds `release_moku` (server.py:243-287): no-op when no handle is held;
otherwise the hardware relinquish call is issued and, whether it succeeds or
raises, all three state fields are cleared (the except branch, server.py:
277-282, clears them too). -/
def release_moku (st : ServerState) (hw : Hardware) :
    ReleaseResult × ServerState × List HWEvent :=
  if !st.moku_connected then
    (.not_connected, st, [])
  else
    match hw.relinquish_ok with
    | none => (.disconnected st.connected_device, idleState, [.relinquish])
    | some e => (.errRelease e, idleState, [.relinquish])

/-! ## push_config (server.py:289-413) -/

/-- Outcome of deploying one slot (one iteration of the loop at
server.py:334-380): the instrument was deployed, the slot was skipped
without any hardware call (CloudCompile without bitstream, server.py:337-339,
or an unsupported instrument, server.py:368-371), or a hardware call raised.
The event list records the calls issued for this slot, the raising one
included. -/
inductive SlotStep
  | deployed (evs : List HWEvent)
  | skipped
  | failed (msg : String) (evs : List HWEvent)
deriving DecidableEq, Repr

/-- The control-register writes of a CloudCompile slot, applied in the order
given (server.py:349-351); the first raising write aborts the slot. -/
def writeRegs (hw : Hardware) (slot : Nat) :
    List (Nat × Nat) → Option String × List HWEvent
  | [] => (none, [])
  | (r, v) :: rest =>
    match hw.write_register_ok slot r v with
    | some e => (some e, [.writeRegister slot r v])
    | none =>
      let (res, evs) := writeRegs hw slot rest
      (res, .writeRegister slot r v :: evs)

/-- One slot of the deployment loop (server.py:335-371).  Matches the code's
string dispatch on the instrument name; the CloudCompile bitstream guard
`if not slot_config.bitstream: continue` is the `none` case. -/
def deploySlot (hw : Hardware) (slot : Nat) (sc : SlotConfig) : SlotStep :=
  if sc.instrument == "CloudCompile" then
    match sc.bitstream with
    | none => .skipped
    | some _ =>
      match hw.set_instrument_ok slot "CloudCompile" with
      | some e => .failed e [.setInstrument slot "CloudCompile"]
      | none =>
        match writeRegs hw slot sc.control_registers with
        | (some e, evs) => .failed e (.setInstrument slot "CloudCompile" :: evs)
        | (none, evs) => .deployed (.setInstrument slot "CloudCompile" :: evs)
  else if sc.instrument == "Oscilloscope" then
    match hw.set_instrument_ok slot "Oscilloscope" with
    | some e => .failed e [.setInstrument slot "Oscilloscope"]
    | none =>
      match sc.timebase with
      | some (t1, t2) =>
        match hw.set_timebase_ok slot t1 t2 with
        | some e =>
          .failed e [.setInstrument slot "Oscilloscope", .setTimebase slot t1 t2]
        | none =>
          .deployed [.setInstrument slot "Oscilloscope", .setTimebase slot t1 t2]
      | none => .deployed [.setInstrument slot "Oscilloscope"]
  else
    .skipped

/-- Result of the whole slot loop: all slots processed (deployed slot numbers
in iteration order, plus the trace), or aborted at `slot` with the exception
message, the slots deployed before the abort, and the trace so far. -/
inductive LoopOut
  | ok (deployed : List Nat) (evs : List HWEvent)
  | failed (slot : Nat) (msg : String) (deployed : List Nat) (evs : List HWEvent)
deriving DecidableEq, Repr

/-- The deployment loop over the declared slots in iteration order
(server.py:334-380): a failed slot aborts immediately, a skipped slot
contributes nothing, a deployed slot is appended to `deployed_slots`. -/
def deployLoop (hw : Hardware) : List (Nat × SlotConfig) → LoopOut
  | [] => .ok [] []
  | (n, sc) :: rest =>
    match deploySlot hw n sc with
    | .failed msg evs => .failed n msg [] evs
    | .skipped => deployLoop hw rest
    | .deployed evs =>
      match deployLoop hw rest with
      | .ok ds tr => .ok (n :: ds) (evs ++ tr)
      | .failed m msg ds tr => .failed m msg (n :: ds) (evs ++ tr)

/-- Result envelope of `push_config`, one constructor per return dict.
`routingFailed` models the `"partial_success"` status (server.py:399-404):
instruments deployed but the routing call raised. -/
inductive PushResult
  | errNotConnected
  | errInvalidRouting (errors : List String)
  | errDeployFailed (slot : Nat) (details : String) (slots_deployed : List Nat)
  | routingFailed (slots_configured : List Nat) (routing_error : String)
  | deployed (slots_configured : List Nat) (routing_configured : Bool)
deriving DecidableEq, Repr

/-- The `slots_configured` / `slots_deployed` list a push result reports,
when it reports one. -/
def PushResult.slotsOf : PushResult → Option (List Nat)
  | .errDeployFailed _ _ ds => some ds
  | .routingFailed ds _ => some ds
  | .deployed ds _ => some ds
  | _ => none

/-- Embeds `push_config` (server.py:289-413).  The connected-session check
comes first; the `MokuConfig.model_validate` schema pass is the typing of the
`cfg` argument here (an ill-typed dict cannot be expressed), so the embedding
starts at the routing re-validation guard (server.py:323-329), which fails
fast before any hardware call.  Then the slot loop, then the single routing
call when edges are declared, and only on full success is `last_config`
replaced (server.py:407). -/
def push_config (st : ServerState) (hw : Hardware) (cfg : MokuConfig) :
    PushResult × ServerState × List HWEvent :=
  if !st.moku_connected then
    (.errNotConnected, st, [])
  else if !cfg.validate_routing.isEmpty then
    (.errInvalidRouting cfg.validate_routing, st, [])
  else
    match deployLoop hw cfg.slots with
    | .failed n msg ds tr => (.errDeployFailed n msg ds, st, tr)
    | .ok ds tr =>
      if cfg.routing.isEmpty then
        (.deployed ds false, { st with last_config := some cfg }, tr)
      else
        match hw.set_connections_ok cfg.routing with
        | some e =>
          (.routingFailed ds e, st, tr ++ [.setConnections cfg.routing])
        | none =>
          (.deployed ds true, { st with last_config := some cfg },
           tr ++ [.setConnections cfg.routing])

/-! ## get_config (server.py:415-475) -/

/-- Result of `get_config`: the error envelope or a serialized config. -/
inductive GetConfigResult
  | errNotConnected
  | config (c : MokuConfig)
deriving DecidableEq, Repr

/-- The routing list of a `get_config` result, when it carries a config. -/
def GetConfigResult.routingOf : GetConfigResult → Option (List MokuConnection)
  | .config c => some c.routing
  | .errNotConnected => none

/-- The best-effort slot reconstruction of `get_config` (server.py:449-460):
each slot 1..4 is queried; a raised exception or an empty slot contributes
nothing, a live instrument yields a `SlotConfig` with only its class name
and empty settings. -/
def querySlots (hw : Hardware) (ns : List Nat) : List (Nat × SlotConfig) :=
  ns.filterMap (fun n =>
    match hw.get_instrument n with
    | some (some name) =>
      some (n, { instrument := name, bitstream := none,
                 control_registers := [], timebase := none })
    | _ => none)

/-- Embeds `get_config` (server.py:415-475): the cached config is returned
when present; otherwise slots are reconstructed from live queries and the
routing list is empty — the fallback at server.py:464-466 reads
`self.last_config`, which is `None` on this branch, so it always yields
`[]`. -/
def get_config (st : ServerState) (hw : Hardware) : GetConfigResult :=
  if !st.moku_connected then
    .errNotConnected
  else
    match st.last_config with
    | some c => .config c
    | none =>
      .config
        { platform := { MOKU_GO_PLATFORM with ip_address := st.connected_device },
          slots := querySlots hw [1, 2, 3, 4],
          routing := [] }

/-! ## set_routing (server.py:477-530) -/

/-- Result envelope of `set_routing`. -/
inductive SetRoutingResult
  | errNotConnected
  | errFailed (details : String)
  | configured (connections_count : Nat)
deriving DecidableEq, Repr

/-- Embeds `set_routing` (server.py:477-530).  The per-connection
`MokuConnection(**conn)` parse is the typing of the argument here.  The
hardware call is issued once; on success the cached config's routing is
replaced when a cache exists (server.py:519-520) and left absent otherwise;
on failure nothing is changed. -/
def set_routing (st : ServerState) (hw : Hardware)
    (conns : List MokuConnection) :
    SetRoutingResult × ServerState × List HWEvent :=
  if !st.moku_connected then
    (.errNotConnected, st, [])
  else
    match hw.set_connections_ok conns with
    | some e => (.errFailed e, st, [.setConnections conns])
    | none =>
      (.configured conns.length,
       { st with last_config :=
           st.last_config.map (fun c => { c with routing := conns }) },
       [.setConnections conns])

/-! ## Singleton pattern (server.py:37-64) -/

/-- The process-wide class-level state of the singleton pattern:
`MokuMCPServer._instance` (holding the id of the registered instance, if
any), the ids of every instance whose construction completed, and a fresh-id
counter to make distinct instances distinguishable. -/
structure SingletonState where
  instance_slot : Option Nat
  live : List Nat
  next_id : Nat
deriving DecidableEq, Repr

/-- The class state of a fresh process: `_instance = None`, nothing
constructed yet. -/
def freshProcess : SingletonState :=
  { instance_slot := none, live := [], next_id := 0 }

/-- Embeds `MokuMCPServer.__init__` (server.py:51-64): raises when
`MokuMCPServer._instance` is already set, otherwise completes construction
of a new instance — note it does not itself store the new instance in
`_instance`. -/
def serverCtor (s : SingletonState) :
    Except String (Nat × SingletonState) :=
  match s.instance_slot with
  | some _ => .error "Use get_instance() instead of direct instantiation"
  | none =>
    .ok (s.next_id,
      { s with live := s.live ++ [s.next_id], next_id := s.next_id + 1 })

/-- Embeds `MokuMCPServer.get_instance` (server.py:39-49): constructs via
`cls()` when `_instance` is `None` and stores the result, otherwise returns
the stored instance. -/
def get_instance (s : SingletonState) :
    Except String (Nat × SingletonState) :=
  match s.instance_slot with
  | some i => .ok (i, s)
  | none =>
    match serverCtor s with
    | .ok (i, s1) => .ok (i, { s1 with instance_slot := some i })
    | .error e => .error e

/-! ## Classification of one slot's deployment step -/

/-- Whether deploying this slot raises. -/
def stepFails (hw : Hardware) (p : Nat × SlotConfig) : Bool :=
  match deploySlot hw p.1 p.2 with
  | .failed _ _ => true
  | _ => false

/-- Whether this slot ends up deployed (not skipped, not failed). -/
def stepDeploys (hw : Hardware) (p : Nat × SlotConfig) : Bool :=
  match deploySlot hw p.1 p.2 with
  | .deployed _ => true
  | _ => false

/-- The slot number, when the slot ends up deployed. -/
def deployedNum (hw : Hardware) (p : Nat × SlotConfig) : Option Nat :=
  if stepDeploys hw p then some p.1 else none

/-- The hardware calls this slot's step issues. -/
def stepEvents (hw : Hardware) (p : Nat × SlotConfig) : List HWEvent :=
  match deploySlot hw p.1 p.2 with
  | .deployed evs => evs
  | .skipped => []
  | .failed _ evs => evs

/-- The exception message of a failing step (empty for the others). -/
def stepMsg (hw : Hardware) (p : Nat × SlotConfig) : String :=
  match deploySlot hw p.1 p.2 with
  | .failed m _ => m
  | _ => ""

/-- The sequence of slot numbers in which instrument-instantiation calls hit
the hardware, read off a trace. -/
def instrumentOrder (tr : List HWEvent) : List Nat :=
  tr.filterMap (fun e =>
    match e with
    | .setInstrument n _ => some n
    | _ => none)

/-! ## Deployment-loop lemmas -/

theorem writeRegs_events (hw : Hardware) (slot : Nat)
    (regs : List (Nat × Nat)) :
    ∀ e ∈ (writeRegs hw slot regs).2, ∃ r v,
      e = HWEvent.writeRegister slot r v := by
  induction regs with
  | nil => intro e he; simp [writeRegs] at he
  | cons rv rest ih =>
    obtain ⟨r, v⟩ := rv
    intro e he
    simp only [writeRegs] at he
    cases hwr : hw.write_register_ok slot r v with
    | some msg =>
      rw [hwr] at he
      simp only [List.mem_singleton] at he
      exact ⟨r, v, he⟩
    | none =>
      rw [hwr] at he
      simp only [List.mem_cons] at he
      rcases he with he | he
      · exact ⟨r, v, he⟩
      · exact ih e he

/-- Every hardware call a slot's deployment step issues addresses that slot:
no step touches another slot or the routing matrix. -/
theorem stepEvents_slotOf (hw : Hardware) (n : Nat) (sc : SlotConfig) :
    ∀ e ∈ stepEvents hw (n, sc), e.slotOf = some n := by
  intro e he
  cases h1 : sc.instrument == "CloudCompile" with
  | true =>
    cases hbs : sc.bitstream with
    | none => simp [stepEvents, deploySlot, h1, hbs] at he
    | some bs =>
      cases hsi : hw.set_instrument_ok n "CloudCompile" with
      | some msg =>
        simp [stepEvents, deploySlot, h1, hbs, hsi] at he
        subst he; rfl
      | none =>
        rcases hwr : writeRegs hw n sc.control_registers with ⟨res, evs⟩
        cases res with
        | some msg =>
          simp [stepEvents, deploySlot, h1, hbs, hsi, hwr] at he
          rcases he with rfl | he
          · rfl
          · obtain ⟨r, v, rfl⟩ := writeRegs_events hw n sc.control_registers e
              (by rw [hwr]; exact he)
            rfl
        | none =>
          simp [stepEvents, deploySlot, h1, hbs, hsi, hwr] at he
          rcases he with rfl | he
          · rfl
          · obtain ⟨r, v, rfl⟩ := writeRegs_events hw n sc.control_registers e
              (by rw [hwr]; exact he)
            rfl
  | false =>
    cases h2 : sc.instrument == "Oscilloscope" with
    | false => simp [stepEvents, deploySlot, h1, h2] at he
    | true =>
      cases hsi : hw.set_instrument_ok n "Oscilloscope" with
      | some msg =>
        simp [stepEvents, deploySlot, h1, h2, hsi] at he
        subst he; rfl
      | none =>
        cases htb : sc.timebase with
        | none =>
          simp [stepEvents, deploySlot, h1, h2, hsi, htb] at he
          subst he; rfl
        | some t =>
          obtain ⟨t1, t2⟩ := t
          cases hst : hw.set_timebase_ok n t1 t2 with
          | some msg =>
            simp [stepEvents, deploySlot, h1, h2, hsi, htb, hst] at he
            rcases he with rfl | rfl <;> rfl
          | none =>
            simp [stepEvents, deploySlot, h1, h2, hsi, htb, hst] at he
            rcases he with rfl | rfl <;> rfl

/-- Whether the step is skipped (CloudCompile without bitstream, or an
unsupported instrument). -/
def stepSkipped (hw : Hardware) (p : Nat × SlotConfig) : Bool :=
  match deploySlot hw p.1 p.2 with
  | .skipped => true
  | _ => false

theorem instrumentOrder_append (a b : List HWEvent) :
    instrumentOrder (a ++ b) = instrumentOrder a ++ instrumentOrder b := by
  simp [instrumentOrder, List.filterMap_append]

theorem instrumentOrder_writeRegs (hw : Hardware) (slot : Nat)
    (regs : List (Nat × Nat)) :
    instrumentOrder (writeRegs hw slot regs).2 = [] := by
  rw [instrumentOrder, List.filterMap_eq_nil_iff]
  intro e he
  obtain ⟨r, v, rfl⟩ := writeRegs_events hw slot regs e he
  rfl

/-- A non-skipped step issues exactly one instrument-instantiation call, for
its own slot; a skipped step issues none. -/
theorem instrumentOrder_step (hw : Hardware) (n : Nat) (sc : SlotConfig) :
    instrumentOrder (stepEvents hw (n, sc)) =
      (if stepSkipped hw (n, sc) then [] else [n]) := by
  cases h1 : sc.instrument == "CloudCompile" with
  | true =>
    cases hbs : sc.bitstream with
    | none => simp [stepEvents, stepSkipped, deploySlot, h1, hbs, instrumentOrder]
    | some bs =>
      cases hsi : hw.set_instrument_ok n "CloudCompile" with
      | some msg =>
        simp [stepEvents, stepSkipped, deploySlot, h1, hbs, hsi, instrumentOrder]
      | none =>
        rcases hwr : writeRegs hw n sc.control_registers with ⟨res, evs⟩
        have hreg := instrumentOrder_writeRegs hw n sc.control_registers
        rw [hwr] at hreg
        simp only [instrumentOrder] at hreg
        cases res with
        | some msg =>
          simp [stepEvents, stepSkipped, deploySlot, h1, hbs, hsi, hwr,
                instrumentOrder, hreg]
        | none =>
          simp [stepEvents, stepSkipped, deploySlot, h1, hbs, hsi, hwr,
                instrumentOrder, hreg]
  | false =>
    cases h2 : sc.instrument == "Oscilloscope" with
    | false => simp [stepEvents, stepSkipped, deploySlot, h1, h2, instrumentOrder]
    | true =>
      cases hsi : hw.set_instrument_ok n "Oscilloscope" with
      | some msg =>
        simp [stepEvents, stepSkipped, deploySlot, h1, h2, hsi, instrumentOrder]
      | none =>
        cases htb : sc.timebase with
        | none =>
          simp [stepEvents, stepSkipped, deploySlot, h1, h2, hsi, htb,
                instrumentOrder]
        | some t =>
          obtain ⟨t1, t2⟩ := t
          cases hst : hw.set_timebase_ok n t1 t2 with
          | some msg =>
            simp [stepEvents, stepSkipped, deploySlot, h1, h2, hsi, htb, hst,
                  instrumentOrder]
          | none =>
            simp [stepEvents, stepSkipped, deploySlot, h1, h2, hsi, htb, hst,
                  instrumentOrder]

/-- When no slot fails, the loop processes every slot, reporting the deployed
slot numbers in declared order, and the trace is the concatenation of the
per-slot traces, in declared order. -/
theorem deployLoop_eq_ok (hw : Hardware) (l : List (Nat × SlotConfig))
    (h : ∀ p ∈ l, stepFails hw p = false) :
    deployLoop hw l =
      .ok (l.filterMap (deployedNum hw)) (l.flatMap (stepEvents hw)) := by
  induction l with
  | nil => rfl
  | cons p rest ih =>
    obtain ⟨n, sc⟩ := p
    have hp := h (n, sc) (List.mem_cons_self _ _)
    have ihr := ih (fun q hq => h q (List.mem_cons_of_mem _ hq))
    cases hds : deploySlot hw n sc with
    | failed msg evs => simp [stepFails, hds] at hp
    | skipped =>
      have hd : deployedNum hw (n, sc) = none := by
        simp [deployedNum, stepDeploys, hds]
      have hev : stepEvents hw (n, sc) = [] := by simp [stepEvents, hds]
      simp [deployLoop, hds, ihr, List.filterMap_cons, hd, List.flatMap_cons, hev]
    | deployed evs =>
      have hd : deployedNum hw (n, sc) = some n := by
        simp [deployedNum, stepDeploys, hds]
      have hev : stepEvents hw (n, sc) = evs := by simp [stepEvents, hds]
      simp [deployLoop, hds, ihr, List.filterMap_cons, hd, List.flatMap_cons, hev]

/-- When some slot fails, the loop aborts at the first failing slot: the
result carries that slot's number and message, the slots deployed in the
non-failing prefix (in declared order), and a trace consisting of the prefix
traces followed by the failing slot's calls — nothing after it. -/
theorem deployLoop_eq_failed (hw : Hardware) (l : List (Nat × SlotConfig))
    (q : Nat × SlotConfig) (h : l.find? (stepFails hw) = some q) :
    deployLoop hw l =
      .failed q.1 (stepMsg hw q)
        ((l.takeWhile (fun p => !stepFails hw p)).filterMap (deployedNum hw))
        ((l.takeWhile (fun p => !stepFails hw p)).flatMap (stepEvents hw)
          ++ stepEvents hw q) := by
  induction l with
  | nil => simp at h
  | cons p rest ih =>
    obtain ⟨n, sc⟩ := p
    cases hds : deploySlot hw n sc with
    | failed msg evs =>
      have hpf : stepFails hw (n, sc) = true := by simp [stepFails, hds]
      have hq : q = (n, sc) := by
        rw [List.find?_cons_of_pos _ hpf] at h
        exact (Option.some_inj.mp h).symm
      subst hq
      have htw : List.takeWhile (fun p => !stepFails hw p) ((n, sc) :: rest)
          = [] := List.takeWhile_cons_of_neg (by simp [hpf])
      simp [deployLoop, hds, htw, stepMsg, stepEvents]
    | skipped =>
      have hpf : stepFails hw (n, sc) = false := by simp [stepFails, hds]
      rw [List.find?_cons_of_neg _ (by simp [hpf])] at h
      have ihh := ih h
      have htw : List.takeWhile (fun p => !stepFails hw p) ((n, sc) :: rest)
          = (n, sc) :: List.takeWhile (fun p => !stepFails hw p) rest :=
        List.takeWhile_cons_of_pos (by simp [hpf])
      have hd : deployedNum hw (n, sc) = none := by
        simp [deployedNum, stepDeploys, hds]
      have hev : stepEvents hw (n, sc) = [] := by simp [stepEvents, hds]
      simp [deployLoop, hds, ihh, htw, List.filterMap_cons, hd,
            List.flatMap_cons, hev]
    | deployed evs =>
      have hpf : stepFails hw (n, sc) = false := by simp [stepFails, hds]
      rw [List.find?_cons_of_neg _ (by simp [hpf])] at h
      have ihh := ih h
      have htw : List.takeWhile (fun p => !stepFails hw p) ((n, sc) :: rest)
          = (n, sc) :: List.takeWhile (fun p => !stepFails hw p) rest :=
        List.takeWhile_cons_of_pos (by simp [hpf])
      have hd : deployedNum hw (n, sc) = some n := by
        simp [deployedNum, stepDeploys, hds]
      have hev : stepEvents hw (n, sc) = evs := by simp [stepEvents, hds]
      simp [deployLoop, hds, ihh, htw, List.filterMap_cons, hd,
            List.flatMap_cons, hev]

/-- The instrument-instantiation order of a no-failure loop trace is exactly
the deployed slots in declared order. -/
theorem instrumentOrder_flatMap (hw : Hardware) (l : List (Nat × SlotConfig))
    (h : ∀ p ∈ l, stepFails hw p = false) :
    instrumentOrder (l.flatMap (stepEvents hw)) = l.filterMap (deployedNum hw) := by
  induction l with
  | nil => rfl
  | cons p rest ih =>
    obtain ⟨n, sc⟩ := p
    have hp := h (n, sc) (List.mem_cons_self _ _)
    have ihr := ih (fun q hq => h q (List.mem_cons_of_mem _ hq))
    rw [List.flatMap_cons, instrumentOrder_append, instrumentOrder_step, ihr]
    cases hds : deploySlot hw n sc with
    | failed msg evs => simp [stepFails, hds] at hp
    | skipped =>
      have hsk : stepSkipped hw (n, sc) = true := by simp [stepSkipped, hds]
      have hd : deployedNum hw (n, sc) = none := by
        simp [deployedNum, stepDeploys, hds]
      simp [hsk, List.filterMap_cons, hd]
    | deployed evs =>
      have hsk : stepSkipped hw (n, sc) = false := by simp [stepSkipped, hds]
      have hd : deployedNum hw (n, sc) = some n := by
        simp [deployedNum, stepDeploys, hds]
      simp [hsk, List.filterMap_cons, hd]

theorem instrumentOrder_setConnections (cs : List MokuConnection) :
    instrumentOrder [HWEvent.setConnections cs] = [] := rfl

/-- Under a connected session, a passing routing validation and no failing
slot, `push_config` reports the deployed slots in declared order and the
instrument-instantiation calls hit the hardware in that same declared
order. -/
theorem push_config_ok_parts (st : ServerState) (hw : Hardware)
    (cfg : MokuConfig) (hc : st.moku_connected = true)
    (hv : cfg.validate_routing = [])
    (hnf : ∀ p ∈ cfg.slots, stepFails hw p = false) :
    (push_config st hw cfg).1.slotsOf
        = some (cfg.slots.filterMap (deployedNum hw))
    ∧ instrumentOrder ((push_config st hw cfg).2.2)
        = cfg.slots.filterMap (deployedNum hw) := by
  have hloop := deployLoop_eq_ok hw cfg.slots hnf
  have hord := instrumentOrder_flatMap hw cfg.slots hnf
  simp only [push_config, hc, hv, Bool.not_true, List.isEmpty_nil,
    Bool.not_true, if_false, Bool.not_false, hloop]
  cases hre : cfg.routing.isEmpty with
  | true => simp [hre, PushResult.slotsOf, hord]
  | false =>
    cases hsc : hw.set_connections_ok cfg.routing with
    | some e =>
      simp [hre, hsc, PushResult.slotsOf, instrumentOrder_append, hord,
            instrumentOrder_setConnections]
    | none =>
      simp [hre, hsc, PushResult.slotsOf, instrumentOrder_append, hord,
            instrumentOrder_setConnections]

/-! ## Concrete fixtures for witnesses and counterexamples -/

/-- An Oscilloscope slot with no extra settings. -/
def oscSlot : SlotConfig := { instrument := "Oscilloscope" }

/-- A CloudCompile slot without a bitstream reference. -/
def ccNoBitstream : SlotConfig := { instrument := "CloudCompile" }

/-- A hardware oracle on which every call succeeds and every slot is empty. -/
def hwOk : Hardware :=
  { connect := fun _ _ => .ok,
    set_instrument_ok := fun _ _ => none,
    write_register_ok := fun _ _ _ => none,
    set_timebase_ok := fun _ _ _ => none,
    set_connections_ok := fun _ => none,
    get_instrument := fun _ => some none,
    relinquish_ok := none }

/-- Like `hwOk`, but instantiating an instrument on slot 2 raises. -/
def hwFailSlot2 : Hardware :=
  { hwOk with set_instrument_ok := fun n _ =>
      if n == 2 then some "simulated slot failure" else none }

/-- Like `hwOk`, but the relinquish call raises. -/
def hwRelinquishFails : Hardware :=
  { hwOk with relinquish_ok := some "simulated relinquish failure" }

/-- A session owning the device at 192.168.1.100, with no cached config. -/
def stOwned : ServerState :=
  { connected_device := some "192.168.1.100", moku_connected := true,
    last_config := none }

/-- A session owning the device at 10.0.0.5. -/
def stOwned5 : ServerState :=
  { connected_device := some "10.0.0.5", moku_connected := true,
    last_config := none }

/-- A registry with one record: the device named Lilo at 10.0.0.5. -/
def cacheLilo : List MokuDeviceInfo :=
  [{ ip := "10.0.0.5", port := 80, canonical_name := some "Lilo",
     serial_number := some "MG106B", last_seen := "" }]

/-- Three Oscilloscope slots declared in ascending order, no routing. -/
def cfgThreeSlots : MokuConfig :=
  { platform := MOKU_GO_PLATFORM,
    slots := [(1, oscSlot), (2, oscSlot), (3, oscSlot)],
    routing := [] }

/-- Two slots declared in descending order (slot 2 before slot 1). -/
def cfgDescending : MokuConfig :=
  { platform := MOKU_GO_PLATFORM,
    slots := [(2, oscSlot), (1, oscSlot)],
    routing := [] }

/-- One slot plus two routing edges between declared channels. -/
def cfgRouted : MokuConfig :=
  { platform := MOKU_GO_PLATFORM,
    slots := [(1, oscSlot)],
    routing := [{ source := "Input1", destination := "Slot1InA" },
                { source := "Slot1OutA", destination := "Output1" }] }

/-- A CloudCompile slot without bitstream between two Oscilloscope slots. -/
def cfgWithBitstreamless : MokuConfig :=
  { platform := MOKU_GO_PLATFORM,
    slots := [(1, oscSlot), (2, ccNoBitstream), (3, oscSlot)],
    routing := [] }

/-- A config whose only routing edge is a self-loop, so routing validation
reports an error. -/
def cfgSelfLoop : MokuConfig :=
  { platform := MOKU_GO_PLATFORM,
    slots := [],
    routing := [{ source := "Input1", destination := "Input1" }] }

/-! ## Claim theorems -/

/-- Claim C9: a token that is a syntactic numeric address literal is returned
verbatim, with a result independent of the registry contents (no registry
consultation); any other token is resolved by the registry lookup over name
or serial, absent when nothing matches.  Resolution is a pure function of the
token and the cached registry, so it performs no network I/O. -/
theorem resolver_policy (cache : List MokuDeviceInfo) (t : String) :
    (looksLikeAddress t = true →
      ∀ cache2 : List MokuDeviceInfo,
        resolve_device_identifier cache2 t = some t)
    ∧ (looksLikeAddress t = false →
      resolve_device_identifier cache t
        = (find_by_identifier cache t).map (fun d => d.ip)) := by
  constructor
  · intro h cache2
    simp [resolve_device_identifier, h]
  · intro h
    simp [resolve_device_identifier, h]

/-- Witness for C9: a dotted literal resolves to itself over the empty
registry; a name resolves through the registry record. -/
theorem resolver_policy_witness :
    resolve_device_identifier [] "192.168.1.100" = some "192.168.1.100"
    ∧ resolve_device_identifier cacheLilo "Lilo" = some "10.0.0.5" :=
  ⟨(resolver_policy [] "192.168.1.100").1 (by decide) [],
   Eq.trans ((resolver_policy cacheLilo "Lilo").2 (by decide)) (by decide)⟩

/-- Claim C1 (amended): while the session is Owned, `attach_moku` returns
the no-op `already_connected` result — with no hardware connect issued and
the state unchanged — exactly when the raw identifier string equals the
stored connected target (the address recorded at connect time); any other
identifier, including one that merely resolves to the owned target, yields
the already-owned error (also without any hardware call or state change). -/
theorem attach_moku_owned_behavior (st : ServerState)
    (cache : List MokuDeviceInfo) (hw : Hardware) (device_id : String)
    (force : Bool) (hc : st.moku_connected = true) :
    (st.connected_device = some device_id →
      attach_moku st cache hw device_id force
        = (.already_connected device_id, st, []))
    ∧ (st.connected_device ≠ some device_id →
      attach_moku st cache hw device_id force
        = (.errAlreadyOwned st.connected_device, st, [])) := by
  constructor
  · intro h
    simp [attach_moku, hc, h]
  · intro h
    simp only [attach_moku, hc, if_true]
    rw [if_neg]
    simp only [beq_iff_eq]
    exact h

/-- Witness for C1's amended theorem: both branches at concrete inputs. -/
theorem attach_moku_owned_behavior_witness :
    attach_moku stOwned5 cacheLilo hwOk "10.0.0.5" false
      = (.already_connected "10.0.0.5", stOwned5, [])
    ∧ attach_moku stOwned5 cacheLilo hwOk "Lilo" false
      = (.errAlreadyOwned (some "10.0.0.5"), stOwned5, []) :=
  ⟨(attach_moku_owned_behavior stOwned5 cacheLilo hwOk "10.0.0.5" false
      (by decide)).1 (by decide),
   (attach_moku_owned_behavior stOwned5 cacheLilo hwOk "Lilo" false
      (by decide)).2 (by decide)⟩

/-- Counterexample for C1 as stated: the session owns 10.0.0.5 and "Lilo"
resolves to 10.0.0.5, yet `attach_moku` with "Lilo" returns the already-owned
error rather than the `already_connected` result — the code compares the raw
identifier, not the resolved target (server.py:177). -/
theorem attach_moku_resolved_target_refused :
    resolve_device_identifier cacheLilo "Lilo" = some "10.0.0.5"
    ∧ stOwned5.moku_connected = true
    ∧ stOwned5.connected_device = some "10.0.0.5"
    ∧ (attach_moku stOwned5 cacheLilo hwOk "Lilo" false).1
        = .errAlreadyOwned (some "10.0.0.5")
    ∧ (attach_moku stOwned5 cacheLilo hwOk "Lilo" false).1.isAlreadyConnected
        = false := by
  refine ⟨by decide, by decide, by decide, ?_, ?_⟩ <;> decide

/-- Claim C2: the code contradicts its own documentation — `__init__`'s
docstring promises a RuntimeError on any attempt to create a second instance,
but the `_instance` guard is only populated by `get_instance`, so two direct
constructor calls in a fresh process both succeed, producing two distinct
live instances (ids 0 and 1). -/
theorem direct_construction_bypasses_singleton_guard :
    serverCtor freshProcess
      = .ok (0, { instance_slot := none, live := [0], next_id := 1 })
    ∧ serverCtor { instance_slot := none, live := [0], next_id := 1 }
      = .ok (1, { instance_slot := none, live := [0, 1], next_id := 2 })
    ∧ (0 : Nat) ≠ 1 := by
  refine ⟨rfl, rfl, by decide⟩

/-- Claim C4: `release_moku` on an Idle session is a no-op returning
`not_connected`; on an Owned session, whatever the relinquish call does
(succeed or raise), the session afterwards is Idle — handle, target and
cached config all cleared. -/
theorem release_moku_idempotent_failsafe (st : ServerState) (hw : Hardware) :
    (st.moku_connected = false →
      release_moku st hw = (.not_connected, st, []))
    ∧ (st.moku_connected = true →
      (release_moku st hw).2.1 = idleState
      ∧ (release_moku st hw).2.2 = [.relinquish]
      ∧ (hw.relinquish_ok = none →
          (release_moku st hw).1 = .disconnected st.connected_device)
      ∧ (∀ e, hw.relinquish_ok = some e →
          (release_moku st hw).1 = .errRelease e)) := by
  constructor
  · intro h
    simp [release_moku, h]
  · intro h
    refine ⟨?_, ?_, ?_, ?_⟩
    · cases hr : hw.relinquish_ok <;> simp [release_moku, h, hr]
    · cases hr : hw.relinquish_ok <;> simp [release_moku, h, hr]
    · intro hr; simp [release_moku, h, hr]
    · intro e hr; simp [release_moku, h, hr]

/-- Witness for C4: the Idle no-op, and an Owned release whose relinquish
call raises yet still leaves the session Idle. -/
theorem release_moku_idempotent_failsafe_witness :
    release_moku idleState hwOk = (.not_connected, idleState, [])
    ∧ (release_moku stOwned hwRelinquishFails).2.1 = idleState
    ∧ (release_moku stOwned hwRelinquishFails).1
        = .errRelease "simulated relinquish failure" :=
  ⟨(release_moku_idempotent_failsafe idleState hwOk).1 (by decide),
   ((release_moku_idempotent_failsafe stOwned hwRelinquishFails).2
      (by decide)).1,
   ((release_moku_idempotent_failsafe stOwned hwRelinquishFails).2
      (by decide)).2.2.2 "simulated relinquish failure" rfl⟩

/-- Claim C8: on a connected session with a config whose routing validation
reports errors, `push_config` returns the error envelope carrying exactly
those errors, issues no hardware call at all (empty trace — no slot
instantiation, no register write, no routing call) and leaves the session
state, cached config included, unchanged. -/
theorem push_config_fails_fast_on_invalid_routing (st : ServerState)
    (hw : Hardware) (cfg : MokuConfig) (hc : st.moku_connected = true)
    (hv : cfg.validate_routing ≠ []) :
    push_config st hw cfg
      = (.errInvalidRouting cfg.validate_routing, st, []) := by
  have hve : cfg.validate_routing.isEmpty = false := by
    cases hx : cfg.validate_routing with
    | nil => exact absurd hx hv
    | cons a l => rfl
  simp [push_config, hc, hve]

/-- Witness for C8: a self-loop config is rejected before any hardware
call. -/
theorem push_config_fails_fast_witness :
    cfgSelfLoop.validate_routing ≠ []
    ∧ push_config stOwned hwOk cfgSelfLoop
        = (.errInvalidRouting cfgSelfLoop.validate_routing, stOwned, []) :=
  ⟨by decide,
   push_config_fails_fast_on_invalid_routing stOwned hwOk cfgSelfLoop
     (by decide) (by decide)⟩

/-- Claim C3 (amended): `push_config` deploys the declared slots in the
declaration (insertion) order of the config's slot mapping — not in sorted
ascending slot-number order.  Deployment is deterministic (a pure function of
the config and the hardware outcomes), so two deployments of the same
configuration attempt slots in the same sequence, but that sequence is the
declared order, and the reported `slots_configured` list and the order of
instrument-instantiation calls both follow it. -/
theorem push_config_declared_order (st : ServerState) (hw : Hardware)
    (cfg : MokuConfig) (hc : st.moku_connected = true)
    (hv : cfg.validate_routing = [])
    (hnf : ∀ p ∈ cfg.slots, stepFails hw p = false) :
    (push_config st hw cfg).1.slotsOf
        = some (cfg.slots.filterMap (deployedNum hw))
    ∧ instrumentOrder ((push_config st hw cfg).2.2)
        = cfg.slots.filterMap (deployedNum hw) :=
  push_config_ok_parts st hw cfg hc hv hnf

/-- Witness for C3's amended theorem: slots declared as 2 then 1 are
deployed as 2 then 1. -/
theorem push_config_declared_order_witness :
    (push_config stOwned hwOk cfgDescending).1.slotsOf = some [2, 1]
    ∧ instrumentOrder ((push_config stOwned hwOk cfgDescending).2.2)
        = [2, 1] := by
  have h := push_config_declared_order stOwned hwOk cfgDescending
    (by decide) (by decide) (by decide)
  exact ⟨Eq.trans h.1 (by decide), Eq.trans h.2 (by decide)⟩

/-- Counterexample for C3 as stated: with slots declared in the order
[2, 1], the instruments hit the hardware in the order 2 then 1, which is not
strictly ascending (the ascending order would be [1, 2]). -/
theorem push_config_not_ascending_order :
    (push_config stOwned hwOk cfgDescending).1 = .deployed [2, 1] false
    ∧ instrumentOrder ((push_config stOwned hwOk cfgDescending).2.2) = [2, 1]
    ∧ ¬ List.Sorted (fun a b : Nat => a < b) [2, 1]
    ∧ List.Sorted (fun a b : Nat => a < b) [1, 2] := by
  refine ⟨by decide, by decide, by decide, by decide⟩

/-- Claim C5: when some slot's deployment raises, `push_config` aborts at
the first failing slot: it returns the failure envelope whose
`slots_deployed` list is exactly the slots deployed in the non-failing
prefix (in declared order), leaves the session state — cached config
included — unchanged, and the trace contains only the prefix slots' calls
and the failing slot's calls: no later slot is attempted and no routing
call (`setConnections` carries no slot) is issued; already-deployed slots
are not rolled back (their calls remain in the trace, and no compensating
call follows). -/
theorem push_config_aborts_on_slot_failure (st : ServerState)
    (hw : Hardware) (cfg : MokuConfig) (q : Nat × SlotConfig)
    (hc : st.moku_connected = true) (hv : cfg.validate_routing = [])
    (hf : cfg.slots.find? (stepFails hw) = some q) :
    push_config st hw cfg =
      (.errDeployFailed q.1 (stepMsg hw q)
        ((cfg.slots.takeWhile (fun p => !stepFails hw p)).filterMap
          (deployedNum hw)),
       st,
       (cfg.slots.takeWhile (fun p => !stepFails hw p)).flatMap
         (stepEvents hw) ++ stepEvents hw q)
    ∧ ∀ e ∈ (cfg.slots.takeWhile (fun p => !stepFails hw p)).flatMap
          (stepEvents hw) ++ stepEvents hw q,
        e.slotOf = some q.1
        ∨ ∃ p ∈ cfg.slots.takeWhile (fun p => !stepFails hw p),
            e.slotOf = some p.1 := by
  have hloop := deployLoop_eq_failed hw cfg.slots q hf
  have hve : cfg.validate_routing.isEmpty = true := by simp [hv]
  constructor
  · simp [push_config, hc, hve, hloop]
  · intro e he
    rcases List.mem_append.mp he with he | he
    · obtain ⟨p, hp, hep⟩ := List.mem_flatMap.mp he
      refine Or.inr ⟨p, hp, ?_⟩
      obtain ⟨n, sc⟩ := p
      exact stepEvents_slotOf hw n sc e hep
    · refine Or.inl ?_
      obtain ⟨n, sc⟩ := q
      exact stepEvents_slotOf hw n sc e he

/-- Witness for C5: slot 2 of a three-slot config fails; slot 1 is reported
deployed, slot 3 is never attempted, the state is unchanged. -/
theorem push_config_aborts_witness :
    cfgThreeSlots.slots.find? (stepFails hwFailSlot2) = some (2, oscSlot)
    ∧ push_config stOwned hwFailSlot2 cfgThreeSlots =
        (.errDeployFailed 2 (stepMsg hwFailSlot2 (2, oscSlot))
          ((cfgThreeSlots.slots.takeWhile
              (fun p => !stepFails hwFailSlot2 p)).filterMap
            (deployedNum hwFailSlot2)),
         stOwned,
         (cfgThreeSlots.slots.takeWhile
             (fun p => !stepFails hwFailSlot2 p)).flatMap
           (stepEvents hwFailSlot2) ++ stepEvents hwFailSlot2 (2, oscSlot))
    ∧ (push_config stOwned hwFailSlot2 cfgThreeSlots).1.slotsOf = some [1] :=
  ⟨by decide,
   (push_config_aborts_on_slot_failure stOwned hwFailSlot2 cfgThreeSlots
      (2, oscSlot) (by decide) (by decide) (by decide)).1,
   by decide⟩

/-- Claim C7: a CloudCompile slot without a bitstream reference is skipped,
never appearing among the configured slots, while every other deployable
slot of the config is still deployed (the run is not aborted). -/
theorem push_config_skips_bitstreamless_cloudcompile (st : ServerState)
    (hw : Hardware) (cfg : MokuConfig) (n : Nat) (sc : SlotConfig)
    (hc : st.moku_connected = true) (hv : cfg.validate_routing = [])
    (hnf : ∀ p ∈ cfg.slots, stepFails hw p = false)
    (hnd : (cfg.slots.map Prod.fst).Nodup)
    (hmem : (n, sc) ∈ cfg.slots)
    (hcc : sc.instrument = "CloudCompile") (hbs : sc.bitstream = none) :
    (push_config st hw cfg).1.slotsOf
        = some (cfg.slots.filterMap (deployedNum hw))
    ∧ n ∉ cfg.slots.filterMap (deployedNum hw)
    ∧ ∀ p ∈ cfg.slots, stepDeploys hw p = true →
        p.1 ∈ cfg.slots.filterMap (deployedNum hw) := by
  refine ⟨(push_config_ok_parts st hw cfg hc hv hnf).1, ?_, ?_⟩
  · intro hmemn
    obtain ⟨p, hp, hpe⟩ := List.mem_filterMap.mp hmemn
    have hdep : stepDeploys hw p = true ∧ p.1 = n := by
      by_cases hd : stepDeploys hw p
      · exact ⟨hd, by simpa [deployedNum, hd] using hpe⟩
      · simp [deployedNum, hd] at hpe
    have hsk : stepDeploys hw (n, sc) = false := by
      simp [stepDeploys, deploySlot, hcc, hbs]
    have hpn : p = (n, sc) :=
      List.inj_on_of_nodup_map hnd hp hmem (by simp [hdep.2])
    rw [hpn] at hdep
    rw [hdep.1] at hsk
    exact absurd hsk (by simp)
  · intro p hp hd
    exact List.mem_filterMap.mpr ⟨p, hp, by simp [deployedNum, hd]⟩

/-- Witness for C7: slot 2 is a CloudCompile slot without bitstream; slots 1
and 3 are deployed, slot 2 is absent from the configured list. -/
theorem push_config_skips_witness :
    (push_config stOwned hwOk cfgWithBitstreamless).1.slotsOf = some [1, 3]
    ∧ (2 : Nat) ∉ cfgWithBitstreamless.slots.filterMap (deployedNum hwOk) := by
  have h := push_config_skips_bitstreamless_cloudcompile stOwned hwOk
    cfgWithBitstreamless 2 ccNoBitstream (by decide) (by decide) (by decide)
    (by decide) (by decide) rfl rfl
  exact ⟨Eq.trans h.1 (by decide), h.2.1⟩

/-- Claim C6: after a fully successful `push_config` (status `deployed` with
routing applied), `get_config` on the resulting session returns the pushed
configuration unchanged — same platform, same slots, and the same routing
edges in the same order — under any hardware oracle, since the cache, not
the device, answers. -/
theorem push_then_get_roundtrip (st : ServerState) (hw hw2 : Hardware)
    (cfg : MokuConfig) (ds : List Nat) (st2 : ServerState)
    (tr : List HWEvent)
    (h : push_config st hw cfg = (.deployed ds true, st2, tr)) :
    get_config st2 hw2 = .config cfg := by
  cases hc : st.moku_connected with
  | false => simp [push_config, hc] at h
  | true =>
    cases hve : cfg.validate_routing.isEmpty with
    | false => simp [push_config, hc, hve] at h
    | true =>
      cases hloop : deployLoop hw cfg.slots with
      | failed n msg ds2 tr2 => simp [push_config, hc, hve, hloop] at h
      | ok ds2 tr2 =>
        cases hre : cfg.routing.isEmpty with
        | true => simp [push_config, hc, hve, hloop, hre] at h
        | false =>
          cases hsc : hw.set_connections_ok cfg.routing with
          | some e => simp [push_config, hc, hve, hloop, hre, hsc] at h
          | none =>
            simp only [push_config, hc, hve, hloop, hre, hsc, Bool.not_true,
              Bool.not_false, Bool.false_eq_true, if_false,
              Prod.mk.injEq] at h
            obtain ⟨h1, hst, h3⟩ := h
            rw [← hst]
            simp [get_config]

/-- Witness for C6: a one-slot config with two routing edges round-trips
through `push_config` and `get_config`. -/
theorem push_then_get_roundtrip_witness :
    push_config stOwned hwOk cfgRouted =
      (.deployed [1] true,
       { stOwned with last_config := some cfgRouted },
       [.setInstrument 1 "Oscilloscope", .setConnections cfgRouted.routing])
    ∧ get_config { stOwned with last_config := some cfgRouted } hwOk
        = .config cfgRouted :=
  ⟨by decide,
   push_then_get_roundtrip stOwned hwOk hwOk cfgRouted [1]
     { stOwned with last_config := some cfgRouted }
     [.setInstrument 1 "Oscilloscope", .setConnections cfgRouted.routing]
     (by decide)⟩

/-- Claim C10: a successful `set_routing` on a connected session returns the
configured count and issues exactly one routing call; when a cached config
exists its routing is replaced by the new connections — platform and slots
untouched — so `get_config` returns the updated config; when no cached
config exists the cache stays absent (the state is unchanged) and
`get_config` still reports empty routing. -/
theorem set_routing_cache_consistency (st : ServerState) (hw hw2 : Hardware)
    (conns : List MokuConnection) (hc : st.moku_connected = true)
    (hok : hw.set_connections_ok conns = none) :
    (set_routing st hw conns).1 = .configured conns.length
    ∧ (set_routing st hw conns).2.2 = [.setConnections conns]
    ∧ (∀ c, st.last_config = some c →
        (set_routing st hw conns).2.1
          = { st with last_config := some { c with routing := conns } }
        ∧ get_config (set_routing st hw conns).2.1 hw2
          = .config { c with routing := conns })
    ∧ (st.last_config = none →
        (set_routing st hw conns).2.1 = st
        ∧ (get_config (set_routing st hw conns).2.1 hw2).routingOf
          = some []) := by
  refine ⟨?_, ?_, ?_, ?_⟩
  · simp [set_routing, hc, hok]
  · simp [set_routing, hc, hok]
  · intro c hlc
    constructor
    · simp [set_routing, hc, hok, hlc]
    · simp [set_routing, hc, hok, hlc, get_config]
  · intro hlc
    have hst : (set_routing st hw conns).2.1 = st := by
      cases st with
      | mk cd mc lc =>
        simp only at hc hlc
        subst hlc
        simp [set_routing, hc, hok]
    refine ⟨hst, ?_⟩
    rw [hst]
    simp [get_config, hc, hlc, GetConfigResult.routingOf]

/-- A single routing edge from platform input to platform output. -/
def ioEdge : MokuConnection := { source := "Input1", destination := "Output1" }

/-- `cfgRouted` with its routing replaced by `[ioEdge]`. -/
def cfgRoutedNew : MokuConfig := { cfgRouted with routing := [ioEdge] }

/-- A session owning 192.168.1.100 with `cfgRouted` cached. -/
def stOwnedCached : ServerState :=
  { stOwned with last_config := some cfgRouted }

/-- Witness for C10: both cache branches at concrete inputs. -/
theorem set_routing_cache_consistency_witness :
    (set_routing stOwnedCached hwOk [ioEdge]).2.1
      = { stOwnedCached with last_config := some cfgRoutedNew }
    ∧ (set_routing stOwned hwOk [ioEdge]).2.1 = stOwned
    ∧ (get_config (set_routing stOwned hwOk [ioEdge]).2.1 hwOk).routingOf
        = some [] :=
  ⟨((set_routing_cache_consistency stOwnedCached hwOk hwOk [ioEdge]
       (by decide) rfl).2.2.1 cfgRouted rfl).1,
   ((set_routing_cache_consistency stOwned hwOk hwOk [ioEdge]
       (by decide) rfl).2.2.2 rfl).1,
   ((set_routing_cache_consistency stOwned hwOk hwOk [ioEdge]
       (by decide) rfl).2.2.2 rfl).2⟩
